import Mathlib

/-!
Shallow embedding of the earnkit SDK agent core (TypeScript sources
`src/agent/index.ts`, the `createTool` wrapper, and `src/types/index.ts`)
and proofs about the capability wrapper, the registry-driven orchestrator,
the checkpoint branching and the facade's error handling.

JavaScript conventions used throughout the embedding:
  * a JS object keyed by strings is an association list `List (String × α)`
    (object keys are unique, insertion ordered);
  * `undefined`/`null` results are `Option`;
  * a thrown JS error is the `.error` side of `Except JsError _`;
  * an `async` function's promise is the return value: `.error` of an
    outer `Except` would mean the promise rejects, a plain value means it
    resolves.
-/

namespace Earnkit

/-- A JavaScript `Error` (or any thrown value): `message` is `none` when the
thrown value has no `message` property. -/
structure JsError where
  message : Option String
deriving Repr, DecidableEq

/-- JS `error.message || fallback`: the fallback is used when `message` is
`undefined` or the empty string (both falsy). -/
def jsMessageOr (e : JsError) (fallback : String) : String :=
  match e.message with
  | none => fallback
  | some m => if m = "" then fallback else m

/-- Property lookup on a string-keyed JS object (`obj[key]`): `none` is
JavaScript `undefined`. -/
def objGet {α : Type} (o : List (String × α)) (k : String) : Option α :=
  (o.find? (fun p => p.1 = k)).map (fun p => p.2)

/-- `Object.keys(obj)` for a string-keyed JS object. -/
def objKeys {α : Type} (o : List (String × α)) : List String :=
  o.map (fun p => p.1)

/-- `Object.values(obj)` for a string-keyed JS object. -/
def objValues {α : Type} (o : List (String × α)) : List α :=
  o.map (fun p => p.2)

/-! ## `createTool` (Capability Wrapper) -/

/-- The schema-definition argument of `createTool` (`src/types/index.ts`
`ToolSchema`): the Capability Descriptor. The `schema` payload is opaque to
the wrapper, so it is carried as an abstract string. -/
structure ToolSchemaDef where
  name : String
  description : String
  schema : String
  requiresApproval : Option Bool
deriving Repr, DecidableEq

/-- The value stored in the exported descriptor mapping; `createTool` builds
it field-by-field from the `ToolSchemaDef`. -/
structure ToolSchemaEntry where
  name : String
  description : String
  schema : String
  requiresApproval : Option Bool
deriving Repr, DecidableEq

/-- A tool-implementation result (`Promise<any>`): either an arbitrary value
(rendered opaquely as a string payload) or absent content. -/
inductive JsValue where
  | str (s : String)
  | undef
deriving Repr, DecidableEq

/-- One evaluation of the implementation function supplied to `createTool`:
it either fulfills with a value or throws/rejects with a `JsError`. -/
def ImplOutcome := Except JsError JsValue

/-- The body of the `StructuredTool.func` closure built by `createTool`:
`try { return await implementation(args, agent) } catch (error) {
return Error: error.message || "Unknown error occurred" }`. -/
def wrappedFunc (implOutcome : Except JsError JsValue) : JsValue :=
  match implOutcome with
  | .ok v => v
  | .error e => .str ("Error: " ++ jsMessageOr e "Unknown error occurred")

/-- The executable tool (`StructuredTool`) built by `createTool`: its
metadata plus the wrapped, context-bound `func`. The behaviour of `func` is
represented by `wrappedFunc` applied to the implementation's outcome. -/
structure StructuredToolRepr where
  name : String
  description : String
  schema : String
deriving Repr, DecidableEq

/-- The `{ tools, schema }` pair returned when the factory produced by
`createTool` is applied to an agent context. -/
structure FactoryResult where
  tools : List StructuredToolRepr
  schema : List (String × ToolSchemaEntry)
deriving Repr, DecidableEq

/-- `createTool(schemaDefinition, implementation)` applied to an agent
context: pushes one `StructuredTool` into `tools` and one entry keyed by
`schemaDefinition.name` into `schema`. -/
def createToolFactory (sd : ToolSchemaDef) : FactoryResult :=
  { tools := [{ name := sd.name, description := sd.description,
                schema := sd.schema }],
    schema := [(sd.name,
      { name := sd.name, description := sd.description, schema := sd.schema,
        requiresApproval := sd.requiresApproval })] }

/-! ## Agent state -/

/-- An executable capability as stored in the agent's `tools` mapping; the
orchestrator reads only its `description` (and manipulates it by key). -/
structure ToolType where
  name : String
  description : String
deriving Repr, DecidableEq

/-- The `params` the agent is constructed with, after the constructor has
reset `params.toolKnowledge` to `[]` (capabilities may append to it later). -/
structure AgentParams where
  name : String
  instruction : String
  toolKnowledge : List String
deriving Repr, DecidableEq

/-- The fields of an `Agent` instance that `orchestrate`/`messageAgent`
read. Neither method assigns to any instance field. -/
structure AgentState where
  threadId : String
  tools : List (String × ToolType)
  toolMetadata : String
  params : AgentParams
  systemPrompt : Option String
deriving Repr, DecidableEq

/-! ## Prompt rendering -/

/-- The guarded template expression
`toolKnowledge && toolKnowledge.length > 0 &&
 toolKnowledge.filter(item => item !== "").map(item => "- " + item).join("\n")`
as interpolated into a template literal. A JS array is truthy even when
empty, so the first conjunct always passes; when `length > 0` fails the
chain evaluates to the boolean `false`, which interpolates as the text
"false"; otherwise the chain evaluates to the joined string (which is the
empty string when every element was filtered out). -/
def knowledgeSection (toolKnowledge : List String) : String :=
  if toolKnowledge.length > 0 then
    String.intercalate "\n"
      ((toolKnowledge.filter (fun item => item ≠ "")).map (fun item => "- " ++ item))
  else "false"

/-- The system-prompt template of `Agent.initialize` up to (excluding) the
`ADDITIONAL KNOWLEDGE FROM TOOLS` interpolation. `nowIso` stands for
`new Date().toISOString()`. -/
def systemPromptHead (name instruction nowIso toolMetadata : String) : String :=
  "\n        Your name is " ++ name ++ " (Agent).\n        \n        INSTRUCTIONS:\n        "
  ++ instruction ++
  "\n        \n        - Behavioral Guidelines:\n          1. NEVER be rude to user\n          2. NEVER try to be over professional\n          3. ALWAYS be friendly to the user\n          4. NEVER act over politely\n          4. ALWAYS be concise and to the point\n        \n        Response Formatting:\n        - Use proper line breaks between different sections of your response for better readability\n        - Utilize markdown features effectively to enhance the structure of your response\n        - Keep responses concise and well-organized\n        - Use emojis sparingly and only when appropriate for the context\n        - Use an abbreviated format for transaction signatures\n        \n        Common knowledge:\n        - Your are hyperoptimized for base blockchain\n        - Chain currently Operating on: Base\n        - Short Description about Base: Base is a high-speed, low-fee blockchain built on top of solana.\n        \n        Realtime knowledge:\n        - \x7b approximateCurrentTime: "
  ++ nowIso ++
  "\x7d\n        \n        Your Available Tools:\n        "
  ++ toolMetadata ++
  "\n        \n        IMPORTANT POINTS:\n        - You are in your developement phase\n        - The development team will update you with more features\n        - Don\x27t use tools when it is not necessary\n        - **Always try to provide short, clear and concise responses**\n\n        ADDITIONAL KNOWLEDGE FROM TOOLS:\n        "

/-- The full rendered system prompt (`new SystemMessage(...)` content in
`Agent.initialize`). -/
def renderSystemPrompt (name instruction nowIso toolMetadata : String)
    (toolKnowledge : List String) : String :=
  systemPromptHead name instruction nowIso toolMetadata
  ++ knowledgeSection toolKnowledge ++ "\n        "

/-- The `Available Tools` block of the orchestration prompt:
`Object.keys(this.tools).map(n => n + ": " + this.tools[n].description).join("\n")`
(object keys are unique, so the keyed lookup is the entry itself). -/
def availableToolLines (tools : List (String × ToolType)) : String :=
  String.intercalate "\n"
    (tools.map (fun p => p.1 ++ ": " ++ p.2.description))

/-- The orchestration-prompt template of `Agent.orchestrate` up to
(excluding) the `Knowledge:` interpolation. -/
def orchestrationPromptHead : String :=
  "\n        You are Earnkit Orchestrator, an AI assistant specialized in Base blockchain and DeFi operations.\n  \n        Your Task:\n        Analyze the user\x27s message and return the appropriate tools as a **JSON array of strings**.\n        If the request can be processed with the knowledge provided to you, then return an **empty JSON array []**\n  \n        Rules:\n        - Only return the tools in the format: [\"tool1\", \"tool2\", ...].  \n        - Do not add any text, explanations, or comments outside the array.\n        - Be complete — include all necessary tools to handle the request, if you\x27re unsure, it\x27s better to include the tool than to leave it out.\n        - If the request cannot be completed with the available tools, return an array describing the unknown tools [\"INVALID_TOOL:$\x7bINVALID_TOOL_NAME\x7d\"].\n        - If no tools are required to process the request return an empty array [].\n        - If the request can be processed with the knowledge provided to you, then return an empty array []\n  \n        Knowledge:\n        "

/-- The full selection prompt `Agent.orchestrate` hands to
`this.model.invoke` on the large-registry path. -/
def orchestrationPrompt (st : AgentState) : String :=
  orchestrationPromptHead
  ++ knowledgeSection st.params.toolKnowledge
  ++ ("\n  \n        Available Tools:\n        "
      ++ availableToolLines st.tools
      ++ "\n        ")

/-! ## `Agent.orchestrate` -/

/-- One entry of the `loadedTools` array handed to `createAgent`:
`this.tools[name]` is the executable when the name is a key of the mapping
and JS `undefined` otherwise. The `passthroughName` form is never produced
by the source; it exists only for the spec-side resolution it is compared
against. -/
inductive ResolvedEntry where
  | exec (t : ToolType)
  | undef
  | passthroughName (s : String)
deriving Repr, DecidableEq

/-- `toolNames.map((name) => this.tools[name])` from `Agent.orchestrate`. -/
def resolveTools (tools : List (String × ToolType)) (toolNames : List String) :
    List ResolvedEntry :=
  toolNames.map (fun n =>
    match objGet tools n with
    | some t => ResolvedEntry.exec t
    | none => ResolvedEntry.undef)

/-- Follows the spec's words, not the source (for comparison with
`resolveTools`): "resolves each returned capability name against the
capability-executable mapping, and every name not present in the mapping
... is passed through as-is into the resolved capability list". -/
def resolveToolsSpec (tools : List (String × ToolType)) (toolNames : List String) :
    List ResolvedEntry :=
  toolNames.map (fun n =>
    match objGet tools n with
    | some t => ResolvedEntry.exec t
    | none => ResolvedEntry.passthroughName n)

/-- The executable agent handle built by `createAgent({llm, tools, checkpointSaver})`
at the end of `orchestrate`: what matters to the facade is the bound tools
list. (`loadedTools || []` is `loadedTools`: an array is always truthy.) -/
structure ExecAgentHandle where
  tools : List ResolvedEntry
deriving Repr, DecidableEq

/-- What one `orchestrate` call did: whether the model was invoked with a
selection prompt (and which), and the returned value (`handle = none` is
the `return false` of the catch). -/
structure OrchestrateResult where
  selectionCalled : Bool
  selectionPrompt : Option String
  handle : Option ExecAgentHandle
deriving Repr, DecidableEq

/-- `Agent.orchestrate(msg)`. `sel` is the environment's outcome for
`JSON.parse((await this.model.invoke([orchestrationPrompt, new UserMessage(msg)])).content)`
on the selection path: `.ok names` when the model call succeeds and its
content parses as a JSON array of names, `.error` when the model call
throws or the content is unparseable JSON (either lands in the `catch`,
which logs and returns `false`). -/
def orchestrate (st : AgentState) (_msg : String)
    (sel : Except JsError (List String)) : OrchestrateResult :=
  if (objKeys st.tools).length > 3 then
    match sel with
    | .error _ =>
        { selectionCalled := true,
          selectionPrompt := some (orchestrationPrompt st),
          handle := none }
    | .ok toolNames =>
        { selectionCalled := true,
          selectionPrompt := some (orchestrationPrompt st),
          handle := some { tools := resolveTools st.tools toolNames } }
  else
    { selectionCalled := false,
      selectionPrompt := none,
      handle := some { tools := (objValues st.tools).map ResolvedEntry.exec } }

/-! ## `Agent.messageAgent` -/

/-- A message submitted to `agent.invoke`. `systemUndef` is
`this.systemPrompt as SystemMessage` when the field was never assigned
(the cast does not check, so `undefined` is submitted as-is). -/
inductive Message where
  | system (content : String)
  | systemUndef
  | user (content : String)
deriving Repr, DecidableEq

/-- Outcome of `await this.checkPointSaver.get(this.config)`: an existing
(truthy) prior state, a null/undefined read (no prior state), or a throw
(including `this.checkPointSaver` itself being undefined). The code only
tests the read's truthiness, so the state payload is not carried. -/
inductive GetOutcome where
  | state
  | null
  | err (e : JsError)
deriving Repr, DecidableEq

/-- One element of `response.messages`; only its `content` is read. -/
structure InvokeMessage where
  content : String
deriving Repr, DecidableEq

/-- The response object of `agent.invoke`. -/
structure InvokeResponse where
  messages : List InvokeMessage
deriving Repr, DecidableEq

/-- The value `messageAgent`'s promise resolves with: a string (extracted
content or the literal "Error"), or the caught error object itself
(`return error` in the outer catch). The promise never rejects. -/
inductive MsgResult where
  | str (s : String)
  | errObj (e : JsError)
deriving Repr, DecidableEq

/-- What one `messageAgent` call submitted to `agent.invoke`
(`none` when `invoke` was never reached). -/
structure MessageTrace where
  submitted : Option (List Message)
deriving Repr, DecidableEq

/-- The `TypeError` thrown by reading `.content` off
`response.messages[-1]` (i.e. `undefined`) when `messages` is empty. -/
def contentTypeError : JsError :=
  { message := some "Cannot read properties of undefined (reading \x27content\x27)" }

/-- `(response && response.messages[response.messages.length - 1].content) || "Error"`
for a defined `response`: empty `messages` throws `contentTypeError` (the
outer catch then returns it), and falsy (empty) content yields "Error". -/
def extractResult (r : InvokeResponse) : MsgResult :=
  match r.messages.getLast? with
  | none => .errObj contentTypeError
  | some m => if m.content = "" then .str "Error" else .str m.content

/-- `Agent.messageAgent(msg)`. Environment outcomes: `sel` as in
`orchestrate`, `getO` for the checkpoint read, `invO` for the executable
agent's `invoke`. Returns the agent state after the call (no instance
field is assigned anywhere in `messageAgent` or `orchestrate`, so it is
the input state), the invoke submission trace, and the resolved value.
When `orchestrate` returns `false`, `throw new Error("Agent failed")`
lands in the outer catch, which returns the error object. A failing
checkpoint read or `invoke` is caught by the inner catch, which only
logs, leaving `response` undefined so that the extraction falls back to
"Error". -/
def messageAgent (st : AgentState) (msg : String)
    (sel : Except JsError (List String)) (getO : GetOutcome)
    (invO : Except JsError InvokeResponse) :
    AgentState × MessageTrace × MsgResult :=
  match (orchestrate st msg sel).handle with
  | none =>
      (st, { submitted := none }, .errObj { message := some "Agent failed" })
  | some _ =>
      let firstTurnMsgs : List Message :=
        [match st.systemPrompt with
         | some sp => Message.system sp
         | none => Message.systemUndef,
         Message.user msg]
      match getO with
      | .err _ => (st, { submitted := none }, .str "Error")
      | .null =>
          match invO with
          | .error _ => (st, { submitted := some firstTurnMsgs }, .str "Error")
          | .ok r => (st, { submitted := some firstTurnMsgs }, extractResult r)
      | .state =>
          match invO with
          | .error _ => (st, { submitted := some [Message.user msg] }, .str "Error")
          | .ok r => (st, { submitted := some [Message.user msg] }, extractResult r)

/-! ## `Agent.initialize` -/

/-- Template interpolation of `error.message` (`undefined` renders as the
text "undefined"). -/
def jsInterpolateMessage (e : JsError) : String :=
  match e.message with
  | none => "undefined"
  | some m => m

/-- The `checkPointer` option of `initialize` (default "local"). -/
inductive CheckPointerChoice where
  | localCp
  | mongo
deriving Repr, DecidableEq

/-- Which checkpoint backend ended up in `this.checkPointSaver`. -/
inductive SaverBackend where
  | memory
  | mongoSaver
deriving Repr, DecidableEq

/-- The agent fields populated by a successful
`exportToolsAndSetMetadata(this, toolNumbers, clients, allRegistry)` call
(its body lives outside this repository's sources; `initialize` only
depends on the populated fields and on whether the call throws). -/
structure RegistryLoadResult where
  tools : List (String × ToolType)
  toolMetadata : String
  toolKnowledge : List String
deriving Repr, DecidableEq

/-- The instance fields as `initialize` leaves them, plus what the outer
catch swallowed: `caughtError` is the error it logged (none on the success
path), and `loggedSuccess` records reaching the final green log line. -/
structure InitState where
  tools : List (String × ToolType)
  systemPrompt : Option String
  checkPointSaver : Option SaverBackend
  caughtError : Option JsError
  loggedSuccess : Bool
deriving Repr, DecidableEq

/-- The descriptive error rethrown by the registry-load catch:
"Agent initialization failed: " followed by the interpolated message. -/
def registryFailError (e : JsError) : JsError :=
  { message := some ("Agent initialization failed: " ++ jsInterpolateMessage e) }

/-- The descriptive error rethrown by the mongo-connection catch:
"MongoDB connection failed: " followed by the interpolated message. -/
def mongoFailError (e : JsError) : JsError :=
  { message := some ("MongoDB connection failed: " ++ jsInterpolateMessage e) }

/-- `Agent.initialize({toolNumbers, clients, allRegistry, checkPointer})`.
`registryLoad` is the environment's outcome for `exportToolsAndSetMetadata`
and `mongoConnect` the outcome of `new MongoClient(MONGO_URI).connect()`.
The return type is the promise: `.error` would be a rejection. Every
branch of the body ends in `.ok`, because the whole body sits in a
`try` whose `catch` only calls `console.error` — the descriptive errors
rethrown by the two inner catches (registry failure, mongo failure) are
swallowed there and the promise resolves with `undefined`. -/
def initializeAgent (params : AgentParams) (nowIso : String)
    (registryLoad : Except JsError RegistryLoadResult)
    (checkPointer : CheckPointerChoice)
    (mongoConnect : Except JsError Unit) : Except JsError InitState :=
  match registryLoad with
  | .error e =>
      .ok { tools := [], systemPrompt := none, checkPointSaver := none,
            caughtError := some (registryFailError e),
            loggedSuccess := false }
  | .ok reg =>
      let sp := renderSystemPrompt params.name params.instruction nowIso
        reg.toolMetadata reg.toolKnowledge
      match checkPointer with
      | .mongo =>
          match mongoConnect with
          | .error e =>
              .ok { tools := reg.tools, systemPrompt := some sp,
                    checkPointSaver := none,
                    caughtError := some (mongoFailError e),
                    loggedSuccess := false }
          | .ok _ =>
              .ok { tools := reg.tools, systemPrompt := some sp,
                    checkPointSaver := some .mongoSaver,
                    caughtError := none, loggedSuccess := true }
      | .localCp =>
          .ok { tools := reg.tools, systemPrompt := some sp,
                checkPointSaver := some .memory,
                caughtError := none, loggedSuccess := true }

/-! ## Shared helpers for the theorems -/

/-- `pat` occurs in `s` as a contiguous substring. -/
def containsText (s pat : String) : Prop := pat.toList <:+: s.toList

/-- A substring placed between two others is contained in the result. -/
theorem containsText_append (a pat b : String) : containsText (a ++ pat ++ b) pat := by
  refine ⟨a.toList, b.toList, ?_⟩
  simp [containsText, String.toList, String.data_append]

/-- A concrete capability used by witnesses and counterexamples. -/
def sampleTool (n : String) : ToolType := { name := n, description := "desc " ++ n }

/-- A concrete agent state whose registry holds the named capabilities. -/
def sampleState (names : List String) : AgentState :=
  { threadId := "t1",
    tools := names.map (fun n => (n, sampleTool n)),
    toolMetadata := "meta",
    params := { name := "Bot", instruction := "help", toolKnowledge := [] },
    systemPrompt := some "SP" }

/-! ## Claims -/

/-- C8: for every schema definition and implementation, the factory returned by
`createTool`, called with an Agent context, returns exactly one executable capability
and a descriptor mapping with exactly one entry, keyed by the Descriptor's name and
carrying its name, description, schema and requiresApproval flag. -/
theorem c8_factory_single_capability (sd : ToolSchemaDef) :
    (createToolFactory sd).tools.length = 1 ∧
    (createToolFactory sd).schema =
      [(sd.name,
        { name := sd.name, description := sd.description, schema := sd.schema,
          requiresApproval := sd.requiresApproval })] :=
  ⟨rfl, rfl⟩

/-- C4: if the wrapped implementation throws or rejects, the capability call returns
the string "Error: " followed by the error's message — or by "Unknown error occurred"
when the error carries no (nonempty) message — as an ordinary result value, never
propagating the failure. -/
theorem c4_wrapper_catches_failure (impl : Except JsError JsValue) (e : JsError)
    (h : impl = .error e) :
    (∀ m : String, e.message = some m → m ≠ "" →
      wrappedFunc impl = .str ("Error: " ++ m)) ∧
    (e.message = none → wrappedFunc impl = .str "Error: Unknown error occurred") ∧
    (e.message = some "" → wrappedFunc impl = .str "Error: Unknown error occurred") := by
  subst h
  refine ⟨?_, ?_, ?_⟩
  · intro m hm hne
    simp [wrappedFunc, jsMessageOr, hm, hne]
  · intro hm
    simp [wrappedFunc, jsMessageOr, hm]
  · intro hm
    simp [wrappedFunc, jsMessageOr, hm]

theorem c4_wrapper_catches_failure_witness :
    wrappedFunc (.error { message := some "boom" }) = .str "Error: boom" ∧
    wrappedFunc (.error { message := none }) = .str "Error: Unknown error occurred" :=
  ⟨(c4_wrapper_catches_failure _ { message := some "boom" } rfl).1 "boom" rfl
      (by decide),
   (c4_wrapper_catches_failure _ { message := none } rfl).2.1 rfl⟩

/-- C3: an agent with at most 3 registered capabilities takes the full-set path (all
registered capabilities bound to the handle, no model selection call); one with 4 or
more takes the selection path (the model is invoked with the selection prompt). -/
theorem c3_selection_threshold (st : AgentState) (msg : String)
    (sel : Except JsError (List String)) :
    ((objKeys st.tools).length ≤ 3 →
      (orchestrate st msg sel).selectionCalled = false ∧
      (orchestrate st msg sel).handle =
        some { tools := (objValues st.tools).map ResolvedEntry.exec }) ∧
    (4 ≤ (objKeys st.tools).length →
      (orchestrate st msg sel).selectionCalled = true ∧
      (orchestrate st msg sel).selectionPrompt = some (orchestrationPrompt st)) := by
  constructor
  · intro h
    unfold orchestrate
    rw [if_neg (by omega)]
    exact ⟨rfl, rfl⟩
  · intro h
    unfold orchestrate
    rw [if_pos (by omega)]
    cases sel <;> exact ⟨rfl, rfl⟩

theorem c3_selection_threshold_witness :
    (orchestrate (sampleState ["a", "b", "c"]) "hi" (.ok ["a"])).selectionCalled
      = false ∧
    (orchestrate (sampleState ["a", "b", "c", "d"]) "hi" (.ok ["a"])).selectionCalled
      = true :=
  ⟨((c3_selection_threshold (sampleState ["a", "b", "c"]) "hi" (.ok ["a"])).1
      (by decide)).1,
   ((c3_selection_threshold (sampleState ["a", "b", "c", "d"]) "hi" (.ok ["a"])).2
      (by decide)).1⟩

/-- C2 counterexample: with the mapping holding only "a" and the model returning
["a", "b"], the source resolves the unknown name "b" to a JS-undefined entry — it is
not passed through as-is into the resolved capability list, contrary to the claim
(the spec-worded resolution differs from the source's at this input). -/
theorem c2_counterexample :
    resolveTools [("a", sampleTool "a")] ["a", "b"] =
      [ResolvedEntry.exec (sampleTool "a"), ResolvedEntry.undef] ∧
    resolveTools [("a", sampleTool "a")] ["a", "b"] ≠
      resolveToolsSpec [("a", sampleTool "a")] ["a", "b"] := by
  constructor
  · rfl
  · decide

/-- C2 amended: orchestrate resolves every returned name against the mapping; a name
that is present binds its executable at its position, and a name that is not present
(including INVALID_TOOL:-prefixed sentinels) yields a JS-undefined entry at its
position — names are never dropped (the bound list keeps the selection's length and
order) and an unknown name never makes the selection fail. -/
theorem c2_unknown_names_become_undefined (st : AgentState) (msg : String)
    (names : List String) (hbig : 3 < (objKeys st.tools).length) :
    ∃ hd : ExecAgentHandle,
      (orchestrate st msg (.ok names)).handle = some hd ∧
      hd.tools.length = names.length ∧
      ∀ i : Nat, (hi : i < names.length) →
        hd.tools[i]? = some (match objGet st.tools (names.get ⟨i, hi⟩) with
          | some t => ResolvedEntry.exec t
          | none => ResolvedEntry.undef) := by
  refine ⟨{ tools := resolveTools st.tools names }, ?_, ?_, ?_⟩
  · unfold orchestrate
    rw [if_pos hbig]
  · simp [resolveTools]
  · intro i hi
    simp [resolveTools, List.getElem?_map, List.getElem?_eq_getElem hi, List.get_eq_getElem]

theorem c2_unknown_names_become_undefined_witness :
    ∃ hd : ExecAgentHandle,
      (orchestrate (sampleState ["a", "b", "c", "d"]) "hi"
        (.ok ["a", "INVALID_TOOL:zz"])).handle = some hd ∧
      hd.tools.length = (["a", "INVALID_TOOL:zz"] : List String).length ∧
      ∀ i : Nat, (hi : i < (["a", "INVALID_TOOL:zz"] : List String).length) →
        hd.tools[i]? = some (match objGet (sampleState ["a", "b", "c", "d"]).tools
            ((["a", "INVALID_TOOL:zz"] : List String).get ⟨i, hi⟩) with
          | some t => ResolvedEntry.exec t
          | none => ResolvedEntry.undef) :=
  c2_unknown_names_become_undefined (sampleState ["a", "b", "c", "d"]) "hi"
    ["a", "INVALID_TOOL:zz"] (by decide)

/-- C7: when the model's selection response is the empty JSON array, the executable
agent handle built for the turn binds no capabilities. -/
theorem c7_empty_selection_binds_nothing (st : AgentState) (msg : String)
    (hbig : 3 < (objKeys st.tools).length) :
    (orchestrate st msg (.ok [])).handle = some { tools := [] } := by
  unfold orchestrate
  rw [if_pos hbig]
  rfl

theorem c7_empty_selection_binds_nothing_witness :
    (orchestrate (sampleState ["a", "b", "c", "d"]) "hi" (.ok [])).handle =
      some { tools := [] } :=
  c7_empty_selection_binds_nothing (sampleState ["a", "b", "c", "d"]) "hi" (by decide)

/-- C5: messageAgent probes the checkpoint store's get first; when it reports no prior
state for the thread, the invocation is submitted as the rendered system instruction
followed by the new user message, and when prior state exists, as only the new user
message with no system instruction. -/
theorem c5_checkpoint_branching (st : AgentState) (msg sp : String)
    (sel : Except JsError (List String)) (invO : Except JsError InvokeResponse)
    (hsp : st.systemPrompt = some sp)
    (hh : ((orchestrate st msg sel).handle).isSome = true) :
    (messageAgent st msg sel .null invO).2.1.submitted =
      some [Message.system sp, Message.user msg] ∧
    (messageAgent st msg sel .state invO).2.1.submitted =
      some [Message.user msg] := by
  unfold messageAgent
  cases hor : (orchestrate st msg sel).handle with
  | none => rw [hor] at hh; simp at hh
  | some hd =>
    cases invO <;> simp [hsp]

theorem c5_checkpoint_branching_witness :
    (messageAgent (sampleState ["a"]) "hi" (.ok ["a"]) .null
        (.ok { messages := [] })).2.1.submitted =
      some [Message.system "SP", Message.user "hi"] ∧
    (messageAgent (sampleState ["a"]) "hi" (.ok ["a"]) .state
        (.ok { messages := [] })).2.1.submitted =
      some [Message.user "hi"] :=
  c5_checkpoint_branching (sampleState ["a"]) "hi" "SP" (.ok ["a"])
    (.ok { messages := [] }) rfl (by decide)

/-- C10: once orchestration yields a handle, a throwing checkpoint read, a throwing
invoke, or an invocation response whose last message has empty content each make
messageAgent resolve with exactly the string "Error" — the inner failure is logged
and never rejects the returned promise. -/
theorem c10_inner_failures_yield_error_string (st : AgentState) (msg : String)
    (sel : Except JsError (List String)) (getO : GetOutcome) (e : JsError)
    (invO : Except JsError InvokeResponse) (r : InvokeResponse)
    (hh : ((orchestrate st msg sel).handle).isSome = true) :
    (messageAgent st msg sel (.err e) invO).2.2 = .str "Error" ∧
    (messageAgent st msg sel getO (.error e)).2.2 = .str "Error" ∧
    (r.messages.getLast? = some { content := "" } →
      (messageAgent st msg sel getO (.ok r)).2.2 = .str "Error") := by
  unfold messageAgent
  cases hor : (orchestrate st msg sel).handle with
  | none => rw [hor] at hh; simp at hh
  | some hd =>
    refine ⟨by simp, ?_, ?_⟩
    · cases getO <;> simp
    · intro hlast
      cases getO <;> simp [extractResult, hlast]

theorem c10_inner_failures_yield_error_string_witness :
    (messageAgent (sampleState ["a"]) "hi" (.ok ["a"])
        (.err { message := some "db down" }) (.ok { messages := [] })).2.2 =
      .str "Error" ∧
    (messageAgent (sampleState ["a"]) "hi" (.ok ["a"]) .null
        (.error { message := some "db down" })).2.2 = .str "Error" ∧
    (messageAgent (sampleState ["a"]) "hi" (.ok ["a"]) .null
        (.ok { messages := [{ content := "" }] })).2.2 = .str "Error" := by
  have h := c10_inner_failures_yield_error_string (sampleState ["a"]) "hi"
    (.ok ["a"]) .null { message := some "db down" }
    (.ok { messages := [] }) { messages := [{ content := "" }] } (by decide)
  exact ⟨h.1, h.2.1, h.2.2 rfl⟩

/-- C6: an orchestration failure (for instance a selection response whose content is
not parseable JSON) is caught inside messageAgent, which resolves with an error value
("Agent failed") instead of throwing past the facade boundary; the instance state is
left intact, and a subsequent messageAgent call on the same state still resolves with
the model's content. -/
theorem c6_orchestration_failure_is_recoverable (st : AgentState) (msg msg2 c : String)
    (e : JsError) (getO : GetOutcome) (invO : Except JsError InvokeResponse)
    (sel2 : Except JsError (List String)) (r2 : InvokeResponse)
    (hbig : 3 < (objKeys st.tools).length)
    (hh2 : ((orchestrate st msg2 sel2).handle).isSome = true)
    (hr2 : r2.messages.getLast? = some { content := c })
    (hc : c ≠ "") :
    (messageAgent st msg (.error e) getO invO).2.2 =
      .errObj { message := some "Agent failed" } ∧
    (messageAgent st msg (.error e) getO invO).1 = st ∧
    (messageAgent st msg2 sel2 .null (.ok r2)).2.2 = .str c := by
  have h1 : (orchestrate st msg (.error e)).handle = none := by
    unfold orchestrate
    rw [if_pos hbig]
  refine ⟨?_, ?_, ?_⟩
  · unfold messageAgent
    rw [h1]
  · unfold messageAgent
    rw [h1]
  · unfold messageAgent
    cases hor : (orchestrate st msg2 sel2).handle with
    | none => rw [hor] at hh2; simp at hh2
    | some hd =>
      simp [extractResult, hr2, hc]

theorem c6_orchestration_failure_is_recoverable_witness :
    (messageAgent (sampleState ["a", "b", "c", "d"]) "x"
        (.error { message := some "Unexpected token" }) .null
        (.ok { messages := [] })).2.2 =
      .errObj { message := some "Agent failed" } ∧
    (messageAgent (sampleState ["a", "b", "c", "d"]) "x"
        (.error { message := some "Unexpected token" }) .null
        (.ok { messages := [] })).1 = sampleState ["a", "b", "c", "d"] ∧
    (messageAgent (sampleState ["a", "b", "c", "d"]) "y" (.ok ["a"]) .null
        (.ok { messages := [{ content := "hello" }] })).2.2 = .str "hello" :=
  c6_orchestration_failure_is_recoverable (sampleState ["a", "b", "c", "d"])
    "x" "y" "hello" { message := some "Unexpected token" } .null
    (.ok { messages := [] }) (.ok ["a"]) { messages := [{ content := "hello" }] }
    (by decide) (by decide) rfl (by decide)

/-- C1: the code contradicts the claim — when the durable (mongo) backend cannot be
connected, and likewise when the registry load throws, the promise returned by
initialize RESOLVES: the descriptive errors rethrown by the inner catches are
swallowed and merely logged by the outer catch. The checkpoint saver is left unset
(so there is indeed no silent fallback to the ephemeral backend), but no rejection
ever reaches the caller. -/
theorem c1_initialize_resolves_despite_fatal_failure :
    initializeAgent { name := "Bot", instruction := "help", toolKnowledge := [] }
        "2026-01-01T00:00:00.000Z"
        (.ok { tools := [], toolMetadata := "", toolKnowledge := [] })
        .mongo (.error { message := some "connect ECONNREFUSED 127.0.0.1:27017" }) =
      .ok { tools := [],
            systemPrompt := some (renderSystemPrompt "Bot" "help"
              "2026-01-01T00:00:00.000Z" "" []),
            checkPointSaver := none,
            caughtError := some (mongoFailError
              { message := some "connect ECONNREFUSED 127.0.0.1:27017" }),
            loggedSuccess := false } ∧
    initializeAgent { name := "Bot", instruction := "help", toolKnowledge := [] }
        "2026-01-01T00:00:00.000Z"
        (.error { message := some "factory exploded" }) .localCp (.ok ()) =
      .ok { tools := [], systemPrompt := none, checkPointSaver := none,
            caughtError := some (registryFailError
              { message := some "factory exploded" }),
            loggedSuccess := false } :=
  ⟨rfl, rfl⟩

/-- C9 counterexample: with toolKnowledge consisting of a single empty string, the
guarded template expression evaluates to the join of the empty filtered list — the
empty string — not to the boolean false, so the knowledge section does not contain
the text "false". -/
theorem c9_counterexample :
    knowledgeSection [""] = "" ∧ ¬ containsText (knowledgeSection [""]) "false" := by
  refine ⟨rfl, ?_⟩
  intro h
  rw [show knowledgeSection [""] = "" from rfl] at h
  obtain ⟨s, t, hst⟩ := h
  have hlen := congrArg List.length hst
  simp [List.length_append] at hlen

/-- C9 amended: when toolKnowledge is the empty list, the guarded expression is the
boolean false, so the knowledge section of both the system prompt rendered by
initialize and the orchestration selection prompt contains the literal text "false";
when toolKnowledge is nonempty but contains only empty strings, the section is the
empty string instead. -/
theorem c9_empty_knowledge_renders_false (name instr nowIso meta : String)
    (st : AgentState) (l : List String) :
    (st.params.toolKnowledge = [] →
      containsText (renderSystemPrompt name instr nowIso meta
        st.params.toolKnowledge) "false" ∧
      containsText (orchestrationPrompt st) "false") ∧
    (l ≠ [] → (∀ s ∈ l, s = "") → knowledgeSection l = "") := by
  constructor
  · intro h
    constructor
    · rw [renderSystemPrompt, h]
      exact containsText_append _ _ _
    · rw [orchestrationPrompt, h]
      exact containsText_append _ _ _
  · intro hne hall
    have hlen : 0 < l.length := List.length_pos.mpr hne
    have hfilter : l.filter (fun item => item ≠ "") = [] := by
      rw [List.filter_eq_nil_iff]
      intro a ha
      simp [hall a ha]
    unfold knowledgeSection
    rw [if_pos hlen, hfilter]
    rfl

theorem c9_empty_knowledge_renders_false_witness :
    (containsText (renderSystemPrompt "Bot" "help" "T" "M"
        (sampleState ["a"]).params.toolKnowledge) "false" ∧
      containsText (orchestrationPrompt (sampleState ["a"])) "false") ∧
    knowledgeSection [""] = "" :=
  ⟨(c9_empty_knowledge_renders_false "Bot" "help" "T" "M"
      (sampleState ["a"]) [""]).1 rfl,
   (c9_empty_knowledge_renders_false "Bot" "help" "T" "M"
      (sampleState ["a"]) [""]).2 (by decide) (by decide)⟩

end Earnkit
